import Mathlib

/-!
Verification development for the bladeRF2 board-control core
(src/host/libraries/libbladeRF/src/board/bladerf2/bladerf2.c).

The C code is shallowly embedded as follows.

Machine integers are modelled as Lean Nat and Int, with explicit
truncation (mod 2 to the power of w) where the C code narrows a value.
Bit operations on 8/16 bit register values are translated into
division/modulus/multiplication/addition arithmetic; each translated
expression carries the original C expression in a comment.
Conversion of a signed value to an unsigned type is modelled with
Int.emod (which is nonnegative for a positive modulus); an arithmetic
right shift of a two complement value is floor division by a power of
two; conversion of a C float to an integer type truncates toward zero
and is modelled by truncQ below.

The scale field of struct bladerf_range is a C float; every scale
constant appearing in this file (1 and 0.001) is exactly representable
in binary32, and the float arithmetic on range bounds is modelled as
exact rational arithmetic.

Hardware registers of the AD9361 front end are 8 bits wide and are
named by an inductive type whose constructors are the register macro
names used by the C file; the numeric addresses live in a third-party
header and distinct names denote distinct registers.  Collaborator
calls (SPI reads and writes, the streaming engine, the USB backend)
are modelled either as explicit state (a register file) or as abstract
functions and call traces, as noted at each definition.
-/

/-! ## Error codes (libbladeRF RETCODES, as used by this file) -/

inductive Err
  | inval        -- BLADERF_ERR_INVAL
  | range        -- BLADERF_ERR_RANGE
  | unsupported  -- BLADERF_ERR_UNSUPPORTED
  | notInit      -- BLADERF_ERR_NOT_INIT
  | unexpected   -- BLADERF_ERR_UNEXPECTED
deriving DecidableEq, Repr

/-! ## Channels

BLADERF_CHANNEL_RX(ch) = (ch shifted left by 1) or 0x0 and
BLADERF_CHANNEL_TX(ch) = (ch shifted left by 1) or 0x1, so the four
valid channels carry codes rx0 = 0, tx0 = 1, rx1 = 2, tx1 = 3.
get_correction and set_correction reject every other code, so the
valid channels are modelled as an inductive type. -/

inductive Channel
  | rx0  -- BLADERF_CHANNEL_RX(0), code 0
  | tx0  -- BLADERF_CHANNEL_TX(0), code 1
  | rx1  -- BLADERF_CHANNEL_RX(1), code 2
  | tx1  -- BLADERF_CHANNEL_TX(1), code 3
deriving DecidableEq, Repr

/-- Models _is_tx: return (ch and BLADERF_TX) with BLADERF_TX = 0x1. -/
def Channel.isTx : Channel → Bool
  | .rx0 => false
  | .rx1 => false
  | .tx0 => true
  | .tx1 => true

/-- Models ch shifted right by 1, the AD9361 subchannel index. -/
def Channel.sub : Channel → Nat
  | .rx0 => 0
  | .tx0 => 0
  | .rx1 => 1
  | .tx1 => 1

/-! ## Board state (struct bladerf2_board_data, field state) -/

inductive BoardState
  | uninitialized   -- STATE_UNINITIALIZED
  | firmwareLoaded  -- STATE_FIRMWARE_LOADED
  | fpgaLoaded      -- STATE_FPGA_LOADED
  | initialized     -- STATE_INITIALIZED
deriving DecidableEq, Repr

/-- Numeric value of the state enumerator, used by the comparison
board_data->state < _state inside _CHECK_BOARD_STATE. -/
def BoardState.rank : BoardState → Nat
  | .uninitialized => 0
  | .firmwareLoaded => 1
  | .fpgaLoaded => 2
  | .initialized => 3

/-! ## Range model (struct bladerf_range, _is_within_range, _clamp_to_range) -/

/-- Models struct bladerf_range: int64_t min, max, step and float scale.
The float scale is modelled as an exact rational. -/
structure BRange where
  min : Int
  max : Int
  step : Int
  scale : ℚ
deriving DecidableEq

/-- Models the C conversion of a float value to a 64-bit integer:
truncation toward zero.  Defined computably through Int.tdiv. -/
def truncQ (q : ℚ) : Int := q.num.tdiv q.den

/-- Models _is_within_range (without the null-range branch, which only
logs and returns false; no call site passes a null range):
return value / range->scale >= range->min and
       value / range->scale <= range->max. -/
def is_within_range (r : BRange) (value : Int) : Bool :=
  decide ((r.min : ℚ) ≤ (value : ℚ) / r.scale ∧ (value : ℚ) / r.scale ≤ (r.max : ℚ))

/-- Models _clamp_to_range (without the null-range branch):
if value / scale < min then value becomes min * scale;
if (the updated) value / scale > max then value becomes max * scale;
the products are float values truncated toward zero on return. -/
def clamp_to_range (r : BRange) (value : Int) : Int :=
  let v1 := if (value : ℚ) / r.scale < (r.min : ℚ)
            then truncQ ((r.min : ℚ) * r.scale) else value
  if (r.max : ℚ) < (v1 : ℚ) / r.scale
  then truncQ ((r.max : ℚ) * r.scale) else v1

/-! Properties of truncQ. -/

theorem truncQ_of_nonneg (q : ℚ) (h : 0 ≤ q) : truncQ q = ⌊q⌋ := by
  have hn : 0 ≤ q.num := Rat.num_nonneg.mpr h
  rw [Rat.floor_def, truncQ, Int.tdiv_eq_ediv hn (by positivity)]

theorem truncQ_of_nonpos (q : ℚ) (h : q ≤ 0) : truncQ q = ⌈q⌉ := by
  have h1 : truncQ q = -truncQ (-q) := by
    simp [truncQ, Rat.neg_num, Rat.neg_den, Int.neg_tdiv]
  have h2 : truncQ (-q) = ⌊-q⌋ := truncQ_of_nonneg _ (by linarith)
  rw [h1, h2, ← Int.ceil_neg, neg_neg]

theorem truncQ_le_of_nonneg (q : ℚ) (h : 0 ≤ q) : (truncQ q : ℚ) ≤ q := by
  rw [truncQ_of_nonneg q h]; exact Int.floor_le q

theorem lt_truncQ_add_one_of_nonneg (q : ℚ) (h : 0 ≤ q) : q < truncQ q + 1 := by
  rw [truncQ_of_nonneg q h]; exact_mod_cast Int.lt_floor_add_one q

theorem le_truncQ_of_nonpos (q : ℚ) (h : q ≤ 0) : q ≤ (truncQ q : ℚ) := by
  rw [truncQ_of_nonpos q h]; exact Int.le_ceil q

theorem truncQ_lt_add_one_of_nonpos (q : ℚ) (h : q ≤ 0) : (truncQ q : ℚ) < q + 1 := by
  rw [truncQ_of_nonpos q h]; exact_mod_cast Int.ceil_lt_add_one q

theorem truncQ_nonpos_of_nonpos (q : ℚ) (h : q ≤ 0) : truncQ q ≤ 0 := by
  rw [truncQ_of_nonpos q h]
  exact Int.ceil_le.mpr (by exact_mod_cast h)

theorem truncQ_nonneg_of_nonneg (q : ℚ) (h : 0 ≤ q) : 0 ≤ truncQ q := by
  rw [truncQ_of_nonneg q h]; exact Int.floor_nonneg.mpr h

/-! Clamp behavior lemmas, for a well-formed range (positive scale and
min at most max, which every range table in the file satisfies). -/

/-- When the second branch fires on the low saturation value, the two
truncated bound products coincide. -/
theorem truncQ_bounds_eq_of_low_over (r : BRange) (hs : 0 < r.scale) (hmm : r.min ≤ r.max)
    (hover : (r.max : ℚ) < (truncQ ((r.min : ℚ) * r.scale) : ℚ) / r.scale) :
    truncQ ((r.max : ℚ) * r.scale) = truncQ ((r.min : ℚ) * r.scale) := by
  set a := (r.min : ℚ) * r.scale with ha
  set b := (r.max : ℚ) * r.scale with hb
  have hab : a ≤ b := by
    apply mul_le_mul_of_nonneg_right _ hs.le
    exact_mod_cast hmm
  have hover2 : b < (truncQ a : ℚ) := by
    rw [hb]
    exact (lt_div_iff₀ hs).mp hover
  -- a must be negative: otherwise truncQ a is the floor of a, at most a, at most b
  have haneg : a < 0 := by
    by_contra hnn
    push_neg at hnn
    have h1 : (truncQ a : ℚ) ≤ a := truncQ_le_of_nonneg a hnn
    linarith
  have hbneg : b ≤ 0 := by
    have h0 : (truncQ a : ℚ) ≤ 0 := by exact_mod_cast truncQ_nonpos_of_nonpos a haneg.le
    linarith
  have h1 : truncQ a ≤ truncQ b := by
    rw [truncQ_of_nonpos a haneg.le, truncQ_of_nonpos b hbneg]
    exact Int.ceil_le.mpr (le_trans hab (Int.le_ceil b))
  have h2 : truncQ b ≤ truncQ a := by
    have hc1 : (truncQ b : ℚ) < b + 1 := truncQ_lt_add_one_of_nonpos b hbneg
    have hc2 : (truncQ b : ℚ) < (truncQ a : ℚ) + 1 := by linarith
    have hc3 : truncQ b < truncQ a + 1 := by exact_mod_cast hc2
    omega
  omega

/-- When the first branch fires on the high saturation value, the two
truncated bound products coincide. -/
theorem truncQ_bounds_eq_of_high_under (r : BRange) (hs : 0 < r.scale) (hmm : r.min ≤ r.max)
    (hunder : (truncQ ((r.max : ℚ) * r.scale) : ℚ) / r.scale < (r.min : ℚ)) :
    truncQ ((r.max : ℚ) * r.scale) = truncQ ((r.min : ℚ) * r.scale) := by
  set a := (r.min : ℚ) * r.scale with ha
  set b := (r.max : ℚ) * r.scale with hb
  have hab : a ≤ b := by
    apply mul_le_mul_of_nonneg_right _ hs.le
    exact_mod_cast hmm
  have hunder2 : (truncQ b : ℚ) < a := by
    rw [ha]
    exact (div_lt_iff₀ hs).mp hunder
  -- b must be nonnegative here: otherwise truncQ b is the ceiling of b, at least b, at least a
  have hbnn : 0 ≤ b := by
    by_contra hneg
    push_neg at hneg
    have h1 : b ≤ (truncQ b : ℚ) := le_truncQ_of_nonpos b hneg.le
    linarith
  have hann : 0 ≤ a := by
    have h0 : (0 : ℚ) ≤ (truncQ b : ℚ) := by exact_mod_cast truncQ_nonneg_of_nonneg b hbnn
    linarith
  have h3 : truncQ a ≤ truncQ b := by
    have hc0 : (truncQ a : ℚ) ≤ a := truncQ_le_of_nonneg a hann
    have hc1 : b < (truncQ b : ℚ) + 1 := lt_truncQ_add_one_of_nonneg b hbnn
    have hc2 : (truncQ a : ℚ) < (truncQ b : ℚ) + 1 := by linarith
    have hc3 : truncQ a < truncQ b + 1 := by exact_mod_cast hc2
    omega
  have h4 : truncQ b ≤ truncQ a := by
    have hc0 : a < (truncQ a : ℚ) + 1 := lt_truncQ_add_one_of_nonneg a hann
    have hc2 : (truncQ b : ℚ) < (truncQ a : ℚ) + 1 := by linarith
    have hc3 : truncQ b < truncQ a + 1 := by exact_mod_cast hc2
    omega
  omega

/-- For a value below the range, the clamp saturates to the truncated
low bound (even when the second branch also fires, the written value
coincides). -/
theorem clamp_below (r : BRange) (hs : 0 < r.scale) (hmm : r.min ≤ r.max)
    (v : Int) (hb : (v : ℚ) / r.scale < (r.min : ℚ)) :
    clamp_to_range r v = truncQ ((r.min : ℚ) * r.scale) := by
  unfold clamp_to_range
  simp only [if_pos hb]
  split
  · next h => exact truncQ_bounds_eq_of_low_over r hs hmm h
  · rfl

/-- For a value above the range, the clamp saturates to the truncated
high bound. -/
theorem clamp_above (r : BRange) (v : Int) (h1 : ¬ (v : ℚ) / r.scale < (r.min : ℚ))
    (h2 : (r.max : ℚ) < (v : ℚ) / r.scale) :
    clamp_to_range r v = truncQ ((r.max : ℚ) * r.scale) := by
  unfold clamp_to_range
  simp only [if_neg h1, if_pos h2]

/-- A value inside the range is returned unchanged. -/
theorem clamp_within (r : BRange) (v : Int) (h1 : ¬ (v : ℚ) / r.scale < (r.min : ℚ))
    (h2 : ¬ (r.max : ℚ) < (v : ℚ) / r.scale) :
    clamp_to_range r v = v := by
  unfold clamp_to_range
  simp only [if_neg h1, if_neg h2]

/-- Clamping the truncated low bound returns it unchanged. -/
theorem clamp_fix_low (r : BRange) (hs : 0 < r.scale) (hmm : r.min ≤ r.max) :
    clamp_to_range r (truncQ ((r.min : ℚ) * r.scale)) = truncQ ((r.min : ℚ) * r.scale) := by
  set m := truncQ ((r.min : ℚ) * r.scale) with hm
  unfold clamp_to_range
  by_cases h1 : (m : ℚ) / r.scale < (r.min : ℚ)
  · simp only [if_pos h1, ← hm]
    split
    · next h => exact truncQ_bounds_eq_of_low_over r hs hmm h
    · rfl
  · simp only [if_neg h1]
    split
    · next h => exact truncQ_bounds_eq_of_low_over r hs hmm h
    · rfl

/-- Clamping the truncated high bound returns it unchanged. -/
theorem clamp_fix_high (r : BRange) (hs : 0 < r.scale) (hmm : r.min ≤ r.max) :
    clamp_to_range r (truncQ ((r.max : ℚ) * r.scale)) = truncQ ((r.max : ℚ) * r.scale) := by
  set M := truncQ ((r.max : ℚ) * r.scale) with hM
  unfold clamp_to_range
  by_cases h1 : (M : ℚ) / r.scale < (r.min : ℚ)
  · have heq : M = truncQ ((r.min : ℚ) * r.scale) :=
      truncQ_bounds_eq_of_high_under r hs hmm (by rw [← hM]; exact h1)
    simp only [if_pos h1, ← hM]
    split
    · next h => exact (truncQ_bounds_eq_of_low_over r hs hmm h).trans heq.symm
    · exact heq.symm
  · simp only [if_neg h1]
    split
    · rfl
    · rfl

/-! ## Static lookup tables (constants section of bladerf2.c)

Frequencies and rates are written as integers (the C initializers use
double literals such as 70e6 that denote exact integers).  AD9361 port
identifiers come from the third-party ADI API enumerations, in
declaration order: A_BALANCED = 0, B_BALANCED = 1, C_BALANCED = 2,
A_N = 3, A_P = 4, B_N = 5, B_P = 6, C_N = 7, C_P = 8, TX_MON1 = 9,
TX_MON2 = 10, TX_MON1_2 = 11, and TXA = 0, TXB = 1. -/

/-- Models struct bladerf_gain_range. -/
structure GainRange where
  frequency : BRange
  gain : BRange
deriving DecidableEq

/-- Models bladerf2_rx_gain_ranges. -/
def bladerf2_rx_gain_ranges : List GainRange :=
  [ ⟨⟨0, 1300000000, 1, 1⟩, ⟨1, 77, 1, 1⟩⟩,
    ⟨⟨1300000000, 4000000000, 1, 1⟩, ⟨-4, 71, 1, 1⟩⟩,
    ⟨⟨4000000000, 6000000000, 1, 1⟩, ⟨-10, 62, 1, 1⟩⟩ ]

/-- Models bladerf2_tx_gain_range (scale is the float 0.001). -/
def bladerf2_tx_gain_range : BRange := ⟨-89750, 0, 250, 1 / 1000⟩

/-- Models bladerf2_rx_gain_stages (name and range pairs). -/
def bladerf2_rx_gain_stages : List (String × BRange) :=
  [ ("full", ⟨-10, 77, 1, 1⟩), ("digital", ⟨0, 31, 1, 1⟩) ]

/-- Models bladerf2_tx_gain_stages. -/
def bladerf2_tx_gain_stages : List (String × BRange) :=
  [ ("dsa", ⟨-89750, 0, 250, 1 / 1000⟩) ]

/-- Models bladerf2_sample_rate_range. -/
def bladerf2_sample_rate_range : BRange := ⟨2083334, 61440000, 1, 1⟩

/-- Models bladerf2_bandwidth_range. -/
def bladerf2_bandwidth_range : BRange := ⟨200000, 56000000, 1, 1⟩

/-- Models bladerf2_rx_frequency_range. -/
def bladerf2_rx_frequency_range : BRange := ⟨70000000, 6000000000, 2, 1⟩

/-- Models bladerf2_tx_frequency_range. -/
def bladerf2_tx_frequency_range : BRange := ⟨70000000, 6000000000, 2, 1⟩

/-- Models bladerf2_rx_port_map (name, AD9361 numeric port id). -/
def bladerf2_rx_port_map : List (String × Nat) :=
  [ ("A_BALANCED", 0), ("B_BALANCED", 1), ("C_BALANCED", 2),
    ("A_N", 3), ("A_P", 4), ("B_N", 5), ("B_P", 6), ("C_N", 7), ("C_P", 8),
    ("TX_MON1", 9), ("TX_MON2", 10), ("TX_MON1_2", 11) ]

/-- Models bladerf2_tx_port_map. -/
def bladerf2_tx_port_map : List (String × Nat) :=
  [ ("TXA", 0), ("TXB", 1) ]

/-! ## Bands and the band/port maps -/

inductive Band
  | shutdown  -- BAND_SHUTDOWN
  | low       -- BAND_LOW
  | high      -- BAND_HIGH
deriving DecidableEq, Repr

/-- Models struct range_band_map. -/
structure RangeBandMap where
  band : Band
  range : BRange
deriving DecidableEq

/-- Models struct band_port_map. -/
structure BandPortMap where
  band : Band
  spdt : Nat
  ad9361_port : Nat
deriving DecidableEq, Repr

def RFFE_CONTROL_ENABLE : Nat := 1
def RFFE_CONTROL_TXNRX : Nat := 2
def RFFE_CONTROL_RX_SW_SHIFT : Nat := 6
def RFFE_CONTROL_TX_SW_SHIFT : Nat := 11
def RFFE_CONTROL_SPDT_SHUTDOWN : Nat := 0x0
def RFFE_CONTROL_SPDT_LOWBAND : Nat := 0xA
def RFFE_CONTROL_SPDT_HIGHBAND : Nat := 0x5

/-- Models bladerf2_rx_range_band_map. -/
def bladerf2_rx_range_band_map : List RangeBandMap :=
  [ ⟨.low, ⟨70000000, 3000000000, 2, 1⟩⟩,
    ⟨.high, ⟨3000000000, 6000000000, 2, 1⟩⟩ ]

/-- Models bladerf2_tx_range_band_map (the TX low band starts at 46.875e6). -/
def bladerf2_tx_range_band_map : List RangeBandMap :=
  [ ⟨.low, ⟨46875000, 3000000000, 2, 1⟩⟩,
    ⟨.high, ⟨3000000000, 6000000000, 2, 1⟩⟩ ]

/-- Models bladerf2_rx_band_port_map (ports: 0 unset, B_BALANCED = 1,
A_BALANCED = 0). -/
def bladerf2_rx_band_port_map : List BandPortMap :=
  [ ⟨.shutdown, RFFE_CONTROL_SPDT_SHUTDOWN, 0⟩,
    ⟨.low, RFFE_CONTROL_SPDT_LOWBAND, 1⟩,
    ⟨.high, RFFE_CONTROL_SPDT_HIGHBAND, 0⟩ ]

/-- Models bladerf2_tx_band_port_map (ports: 0 unset, TXB = 1, TXA = 0). -/
def bladerf2_tx_band_port_map : List BandPortMap :=
  [ ⟨.shutdown, RFFE_CONTROL_SPDT_SHUTDOWN, 0⟩,
    ⟨.low, RFFE_CONTROL_SPDT_LOWBAND, 1⟩,
    ⟨.high, RFFE_CONTROL_SPDT_HIGHBAND, 0⟩ ]

/-- Models _get_band_by_frequency: select the RX or TX map by _is_tx,
cast the uint64 frequency to int64, return the band of the first range
containing it, and BAND_SHUTDOWN when no range matches. -/
def get_band_by_frequency (ch : Channel) (frequency : Nat) : Band :=
  let band_map := if ch.isTx then bladerf2_tx_range_band_map else bladerf2_rx_range_band_map
  match band_map.find? (fun e => is_within_range e.range (frequency : Int)) with
  | some e => e.band
  | none => .shutdown

/-- Models _get_band_port_map: the band is the frequency band when the
channel is enabled and BAND_SHUTDOWN otherwise; the first entry of the
direction port map with that band is returned, none when absent. -/
def get_band_port_map (ch : Channel) (enabled : Bool) (frequency : Nat) : Option BandPortMap :=
  let band := if enabled then get_band_by_frequency ch frequency else Band.shutdown
  let port_map := if ch.isTx then bladerf2_tx_band_port_map else bladerf2_rx_band_port_map
  port_map.find? (fun e => e.band == band)

/-! Helper equations for scale-one ranges. -/

theorem is_within_range_scale_one (a b st v : Int) :
    is_within_range ⟨a, b, st, 1⟩ v = decide (a ≤ v ∧ v ≤ b) := by
  unfold is_within_range
  apply decide_eq_decide.mpr
  simp only [div_one]
  constructor
  · rintro ⟨h1, h2⟩
    exact ⟨by exact_mod_cast h1, by exact_mod_cast h2⟩
  · rintro ⟨h1, h2⟩
    exact ⟨by exact_mod_cast h1, by exact_mod_cast h2⟩

theorem truncQ_intCast (z : Int) : truncQ (z : ℚ) = z := by
  rcases le_or_lt 0 z with h | h
  · rw [truncQ_of_nonneg _ (by exact_mod_cast h)]
    exact Int.floor_intCast z
  · rw [truncQ_of_nonpos _ (by exact_mod_cast h.le)]
    exact Int.ceil_intCast z

theorem clamp_to_range_scale_one (a b st v : Int) (hab : a ≤ b) :
    clamp_to_range ⟨a, b, st, 1⟩ v = max a (min b v) := by
  unfold clamp_to_range
  have htm : ∀ z : Int, truncQ ((z : ℚ) * 1) = z := by
    intro z
    rw [mul_one]
    exact truncQ_intCast z
  simp only [div_one, htm]
  split_ifs with h1 h2 h3
  · have h1i : v < a := by exact_mod_cast h1
    have h2i : b < a := by exact_mod_cast h2
    omega
  · have h1i : v < a := by exact_mod_cast h1
    omega
  · have h1i : ¬ v < a := by exact_mod_cast h1
    have h3i : b < v := by exact_mod_cast h3
    omega
  · have h1i : ¬ v < a := by exact_mod_cast h1
    have h3i : ¬ b < v := by exact_mod_cast h3
    omega

/-! ## Tuning and rate operations used by claims C3 and C4

The AD9361 front end is an external collaborator.  Its storage of a
delegated value is modelled by an abstract function store from the
requested value to the value the front end keeps, and a re-read
returns exactly the kept value. -/

/-- Models bladerf2_set_sample_rate after the board-state gate: the
requested rate is validated with _is_within_range (BLADERF_ERR_RANGE
when outside), delegated to ad9361_set_rx/tx_sampling_freq, and a
requested actual output re-reads the front end through
bladerf2_get_sample_rate.  The pair is (front end value, actual). -/
def bladerf2_set_sample_rate (store : Nat → Nat) (rate : Nat) : Except Err (Nat × Nat) :=
  if ¬ (is_within_range bladerf2_sample_rate_range (rate : Int) = true) then
    .error .range
  else
    let phy := store rate
    .ok (phy, phy)

/-- Models bladerf2_set_bandwidth after the board-state gate: the
requested bandwidth is clamped with _clamp_to_range (no error path),
delegated to ad9361_set_rx/tx_rf_bandwidth, and a requested actual
output re-reads the front end through bladerf2_get_bandwidth. -/
def bladerf2_set_bandwidth (store : Nat → Nat) (bandwidth : Nat) : Nat × Nat :=
  let bw := (clamp_to_range bladerf2_bandwidth_range (bandwidth : Int)).toNat
  let phy := store bw
  (phy, phy)

/-! ## Gain engine (bladerf2_get_gain_range, bladerf2_set_gain, bladerf2_get_gain) -/

/-- Models bladerf2_get_gain_range: TX returns the fixed TX gain range;
RX scans the three frequency-keyed ranges with the current frequency
and returns the gain range of the first match, else BLADERF_ERR_RANGE. -/
def bladerf2_get_gain_range (frequency : Nat) (ch : Channel) : Except Err BRange :=
  if ch.isTx then .ok bladerf2_tx_gain_range
  else
    match bladerf2_rx_gain_ranges.find?
        (fun e => is_within_range e.frequency (frequency : Int)) with
    | some e => .ok e.gain
    | none => .error .range

/-- Front-end gain state: the value kept by ad9361_set_rx_rf_gain and
the attenuation kept by ad9361_set_tx_attenuation, assumed stored
faithfully (claim C3 assumes a faithful front end). -/
structure FeGain where
  rxGain : Int
  txAtten : Int
deriving DecidableEq, Repr

/-- Models bladerf2_set_gain: resolve the range, then
val = -_clamp_to_range(range, gain) / range.scale for TX (sent as
attenuation) and val = _clamp_to_range(range, gain) / range.scale for
RX; the division is float arithmetic truncated toward zero on
assignment to the int val. -/
def bladerf2_set_gain (frequency : Nat) (ch : Channel) (gain : Int) (fe : FeGain) :
    Except Err FeGain :=
  match bladerf2_get_gain_range frequency ch with
  | .error e => .error e
  | .ok range =>
    if ch.isTx then
      let val := truncQ ((-(clamp_to_range range gain) : ℚ) / range.scale)
      .ok { fe with txAtten := val }
    else
      let val := truncQ ((clamp_to_range range gain : ℚ) / range.scale)
      .ok { fe with rxGain := val }

/-- Models bladerf2_get_gain: resolve the range; for TX read the
attenuation and return my_gain = -(atten * range.scale); for RX the
call ad9361_get_rx_rf_gain(phy, ch shifted right by 1, gain) writes
the front-end gain into the caller output pointer, after which
my_gain (initialized to 0) is multiplied by range.scale and finally
stored through the same output pointer, so the returned value is the
final content of that pointer. -/
def bladerf2_get_gain (frequency : Nat) (ch : Channel) (fe : FeGain) : Except Err Int :=
  match bladerf2_get_gain_range frequency ch with
  | .error e => .error e
  | .ok range =>
    if ch.isTx then
      .ok (truncQ (-(fe.txAtten * range.scale)))
    else
      let _hw := fe.rxGain   -- written into *gain by ad9361_get_rx_rf_gain
      let my_gain := truncQ ((0 : ℚ) * range.scale)  -- int my_gain = 0; my_gain *= range.scale
      .ok my_gain            -- *gain = my_gain overwrites the hardware value

/-! ## Claim theorems: C8, C2, C4, C3 -/

/-- Claim C8: for every well-formed range (positive scale, min at most
max) and every value, clamping is idempotent, a value already in range
is returned unchanged, an out-of-range value saturates to the
corresponding truncated bound, and clamping is a total function with
no error path. -/
theorem claim_C8_clamp_idempotent (r : BRange) (hs : 0 < r.scale) (hmm : r.min ≤ r.max)
    (v : Int) :
    clamp_to_range r (clamp_to_range r v) = clamp_to_range r v ∧
    (is_within_range r v = true → clamp_to_range r v = v) ∧
    ((v : ℚ) / r.scale < (r.min : ℚ) →
      clamp_to_range r v = truncQ ((r.min : ℚ) * r.scale)) ∧
    ((r.max : ℚ) < (v : ℚ) / r.scale →
      clamp_to_range r v = truncQ ((r.max : ℚ) * r.scale)) := by
  refine ⟨?_, ?_, fun h => clamp_below r hs hmm v h, fun h => ?_⟩
  · by_cases h1 : (v : ℚ) / r.scale < (r.min : ℚ)
    · rw [clamp_below r hs hmm v h1]
      exact clamp_fix_low r hs hmm
    · by_cases h2 : (r.max : ℚ) < (v : ℚ) / r.scale
      · rw [clamp_above r v h1 h2]
        exact clamp_fix_high r hs hmm
      · rw [clamp_within r v h1 h2]
        exact clamp_within r v h1 h2
  · intro h
    have hw : (r.min : ℚ) ≤ (v : ℚ) / r.scale ∧ (v : ℚ) / r.scale ≤ (r.max : ℚ) := by
      simpa [is_within_range] using h
    exact clamp_within r v (not_lt.mpr hw.1) (not_lt.mpr hw.2)
  · have hmin : ¬ (v : ℚ) / r.scale < (r.min : ℚ) := by
      push_neg
      calc (r.min : ℚ) ≤ (r.max : ℚ) := by exact_mod_cast hmm
      _ ≤ (v : ℚ) / r.scale := h.le
    exact clamp_above r v hmin h

/-- Witness for claim C8 at the bandwidth range and the in-range value
300000. -/
theorem claim_C8_clamp_idempotent_witness :
    clamp_to_range bladerf2_bandwidth_range
      (clamp_to_range bladerf2_bandwidth_range 300000) =
    clamp_to_range bladerf2_bandwidth_range 300000 :=
  (claim_C8_clamp_idempotent bladerf2_bandwidth_range
    (by simp [bladerf2_bandwidth_range])
    (by simp [bladerf2_bandwidth_range])
    300000).1

/-- Claim C2 as amended: for every channel, band selection returns Low
for a frequency from the low edge of the direction band map up to and
including the 3 GHz boundary (first match wins at the boundary), High
strictly above 3 GHz up to 6 GHz, and for a disabled channel the
selected entry is the Shutdown one with antenna switch code 0x0 and
front-end port id 0 regardless of frequency. -/
theorem claim_C2_band_selection (ch : Channel) (f : Nat) :
    ((if ch.isTx then 46875000 else 70000000) ≤ f → f ≤ 3000000000 →
      get_band_by_frequency ch f = Band.low) ∧
    (3000000000 < f → f ≤ 6000000000 →
      get_band_by_frequency ch f = Band.high) ∧
    (get_band_port_map ch false f =
      some ⟨Band.shutdown, RFFE_CONTROL_SPDT_SHUTDOWN, 0⟩) := by
  refine ⟨fun h1 h2 => ?_, fun h1 h2 => ?_, ?_⟩
  · cases ch <;>
    · simp [Channel.isTx] at h1
      simp [get_band_by_frequency, Channel.isTx, bladerf2_rx_range_band_map,
        bladerf2_tx_range_band_map, List.find?, is_within_range_scale_one, h1, h2]
  · cases ch <;>
    · have hA : ¬ f ≤ 3000000000 := by omega
      have hB : 3000000000 ≤ f := by omega
      have hD : 70000000 ≤ f := by omega
      have hE : 46875000 ≤ f := by omega
      simp [get_band_by_frequency, Channel.isTx, bladerf2_rx_range_band_map,
        bladerf2_tx_range_band_map, List.find?, is_within_range_scale_one,
        hA, hB, hD, hE, h2]
  · cases ch <;>
      simp [get_band_port_map, Channel.isTx,
        bladerf2_rx_band_port_map, bladerf2_tx_band_port_map,
        RFFE_CONTROL_SPDT_SHUTDOWN, List.find?]

/-- Witness for claim C2 at RX, 200 MHz (Low) and the disabled case. -/
theorem claim_C2_band_selection_witness :
    get_band_by_frequency Channel.rx0 200000000 = Band.low ∧
    get_band_by_frequency Channel.rx0 4000000000 = Band.high :=
  ⟨(claim_C2_band_selection Channel.rx0 200000000).1 (by decide) (by decide),
   ((claim_C2_band_selection Channel.rx0 4000000000).2.1 (by decide) (by decide))⟩

/-- Counterexample for claim C2 as frozen: at exactly the 3 GHz
boundary the scan matches the Low range first (its bounds are
inclusive), so an enabled channel gets Low, not High as the claim
requires for f at or above the boundary. -/
theorem claim_C2_band_selection_counterexample :
    get_band_by_frequency Channel.rx0 3000000000 = Band.low ∧
    Band.low ≠ Band.high := by
  constructor
  · simp [get_band_by_frequency, Channel.isTx, bladerf2_rx_range_band_map,
      List.find?, is_within_range_scale_one]
  · decide

/-- Claim C4 as amended: set_bandwidth clamps the request to the fixed
bandwidth range and never fails with a range error, while
set_sample_rate validates the request against the fixed sample-rate
range and returns BLADERF_ERR_RANGE when it is outside (it does not
clamp); in both operations a requested actual output is obtained by
re-reading the value kept by the front end rather than echoing the
request. -/
theorem claim_C4_rate_and_bandwidth (store : Nat → Nat) (rate bandwidth : Nat) :
    (is_within_range bladerf2_sample_rate_range (rate : Int) = true →
      bladerf2_set_sample_rate store rate = .ok (store rate, store rate)) ∧
    (is_within_range bladerf2_sample_rate_range (rate : Int) = false →
      bladerf2_set_sample_rate store rate = .error .range) ∧
    (∃ b : Nat, 200000 ≤ b ∧ b ≤ 56000000 ∧
      bladerf2_set_bandwidth store bandwidth = (store b, store b)) := by
  refine ⟨fun h => ?_, fun h => ?_, ?_⟩
  · simp [bladerf2_set_sample_rate, h]
  · simp [bladerf2_set_sample_rate, h]
  · refine ⟨(clamp_to_range bladerf2_bandwidth_range (bandwidth : Int)).toNat, ?_, ?_, rfl⟩
    all_goals
      have hc : clamp_to_range bladerf2_bandwidth_range (bandwidth : Int) =
          max 200000 (min 56000000 (bandwidth : Int)) :=
        clamp_to_range_scale_one 200000 56000000 1 (bandwidth : Int) (by omega)
      rw [hc]
      omega

/-- Witness for claim C4 at an in-range rate with an identity front end. -/
theorem claim_C4_rate_and_bandwidth_witness :
    bladerf2_set_sample_rate (fun r => r) 30720000 = .ok (30720000, 30720000) :=
  (claim_C4_rate_and_bandwidth (fun r => r) 30720000 0).1
    (by simp [bladerf2_sample_rate_range, is_within_range_scale_one])

/-- Counterexample for claim C4 as frozen: a requested sample rate of 0
is below the fixed range and set_sample_rate fails with the range
error instead of clamping. -/
theorem claim_C4_rate_and_bandwidth_counterexample :
    bladerf2_set_sample_rate (fun r => r) 0 = .error .range := by
  simp [bladerf2_set_sample_rate, bladerf2_sample_rate_range, is_within_range_scale_one]

/-- Claim C3 (code bug): with the board tuned to 1500 MHz, the resolved
RX gain range is the middle sub-range with bounds -4 and 71 and
set_gain stores the requested 30 dB in the front end, but get_gain
returns 0 for every RX read because the value fetched from the front
end is overwritten by the zero-initialized local before being stored
through the output pointer. -/
theorem claim_C3_rx_gain_readback_zero :
    bladerf2_get_gain_range 1500000000 Channel.rx0 = .ok ⟨-4, 71, 1, 1⟩ ∧
    bladerf2_set_gain 1500000000 Channel.rx0 30 ⟨0, 0⟩ = .ok ⟨30, 0⟩ ∧
    bladerf2_get_gain 1500000000 Channel.rx0 ⟨30, 0⟩ = .ok 0 ∧
    (0 : Int) ≠ 30 := by
  have hrange : bladerf2_get_gain_range 1500000000 Channel.rx0 = .ok ⟨-4, 71, 1, 1⟩ := by
    simp [bladerf2_get_gain_range, Channel.isTx, bladerf2_rx_gain_ranges,
      List.find?, is_within_range_scale_one]
  refine ⟨hrange, ?_, ?_, by decide⟩
  · have hclamp : clamp_to_range ⟨-4, 71, 1, 1⟩ 30 = 30 := by
      rw [clamp_to_range_scale_one (-4) 71 1 30 (by omega)]
      decide
    simp [bladerf2_set_gain, hrange, Channel.isTx, hclamp, truncQ_intCast]
    rw [show (30 : ℚ) = ((30 : Int) : ℚ) by norm_num]
    exact truncQ_intCast 30
  · simp [bladerf2_get_gain, hrange, Channel.isTx, truncQ_intCast]
    rw [show (0 : ℚ) = ((0 : Int) : ℚ) by norm_num]
    exact truncQ_intCast 0

/-! ## Gain mode engine (bladerf2_set_gain_mode) -/

/-- Driver gain modes (bladerf_gain_mode). -/
inductive BrfGainMode
  | default        -- BLADERF_GAIN_DEFAULT
  | mgc            -- BLADERF_GAIN_MGC
  | fastattackAgc  -- BLADERF_GAIN_FASTATTACK_AGC
  | slowattackAgc  -- BLADERF_GAIN_SLOWATTACK_AGC
  | hybridAgc      -- BLADERF_GAIN_HYBRID_AGC
deriving DecidableEq, Repr

/-- Front-end gain control modes (enum rf_gain_ctrl_mode of the ADI API). -/
inductive RfGainCtrlMode
  | RF_GAIN_MGC
  | RF_GAIN_FASTATTACK_AGC
  | RF_GAIN_SLOWATTACK_AGC
  | RF_GAIN_HYBRID_AGC
deriving DecidableEq, Repr

/-- Models bladerf2_rx_gain_mode_map (driver mode, front-end mode). -/
def bladerf2_rx_gain_mode_map : List (BrfGainMode × RfGainCtrlMode) :=
  [ (.mgc, .RF_GAIN_MGC),
    (.fastattackAgc, .RF_GAIN_FASTATTACK_AGC),
    (.slowattackAgc, .RF_GAIN_SLOWATTACK_AGC),
    (.hybridAgc, .RF_GAIN_HYBRID_AGC) ]

/-- The two fields of the external initialization parameter block
ad9361_init_params that set_gain_mode consumes. -/
structure AD9361InitParam where
  gc_rx1_mode : RfGainCtrlMode
  gc_rx2_mode : RfGainCtrlMode
deriving DecidableEq, Repr

/-- A command issued to the front end by the gain mode engine. -/
inductive FeCall
  | setRxGainControlMode (chan : Nat) (m : RfGainCtrlMode)  -- ad9361_set_rx_gain_control_mode
deriving DecidableEq, Repr

/-- Models bladerf2_set_gain_mode: TX is unsupported; the RX
sub-channel picks the AD9361 channel index and the configured default
gain-control mode from the parameter block (the catch-all unsupported
arm for other channel codes is unreachable over the four valid
constructors); a mode other than BLADERF_GAIN_DEFAULT is translated
through the mode map (the loop leaves the default when no entry
matches); finally ad9361_set_rx_gain_control_mode is always invoked
with the resolved mode.  The returned list is the trace of front-end
commands. -/
def bladerf2_set_gain_mode (params : AD9361InitParam) (ch : Channel) (mode : BrfGainMode) :
    Except Err (List FeCall) :=
  if ch.isTx then .error .unsupported
  else
    let chan : Nat := ch.sub
    let gcDefault := if ch = .rx0 then params.gc_rx1_mode else params.gc_rx2_mode
    let gc_mode :=
      if mode ≠ .default then
        match bladerf2_rx_gain_mode_map.find? (fun e => e.1 == mode) with
        | some e => e.2
        | none => gcDefault
      else gcDefault
    .ok [FeCall.setRxGainControlMode chan gc_mode]

/-- Claim C5 as amended: set_gain_mode on a TX channel is unsupported;
on RX sub-channels 0 and 1 the BLADERF_GAIN_DEFAULT mode resolves to
the configured default gain-control mode of that sub-channel from the
initialization parameter block, but the resolved mode is still sent to
the front end with ad9361_set_rx_gain_control_mode (exactly one
command is issued); every other driver mode is translated through the
fixed mode map and sent. -/
theorem claim_C5_gain_mode (params : AD9361InitParam) (ch : Channel) (mode : BrfGainMode) :
    (ch.isTx = true → bladerf2_set_gain_mode params ch mode = .error .unsupported) ∧
    (bladerf2_set_gain_mode params .rx0 .default =
      .ok [FeCall.setRxGainControlMode 0 params.gc_rx1_mode]) ∧
    (bladerf2_set_gain_mode params .rx1 .default =
      .ok [FeCall.setRxGainControlMode 1 params.gc_rx2_mode]) ∧
    (ch.isTx = false → mode ≠ .default →
      ∃ gc, (mode, gc) ∈ bladerf2_rx_gain_mode_map ∧
        bladerf2_set_gain_mode params ch mode =
          .ok [FeCall.setRxGainControlMode ch.sub gc]) := by
  refine ⟨fun h => ?_, ?_, ?_, fun h hm => ?_⟩
  · simp [bladerf2_set_gain_mode, h]
  · simp [bladerf2_set_gain_mode, Channel.isTx, Channel.sub]
  · simp [bladerf2_set_gain_mode, Channel.isTx, Channel.sub]
  · cases ch <;> simp [Channel.isTx] at h <;> cases mode <;> simp at hm <;>
      first
      | exact ⟨RfGainCtrlMode.RF_GAIN_MGC, by decide, by rfl⟩
      | exact ⟨RfGainCtrlMode.RF_GAIN_FASTATTACK_AGC, by decide, by rfl⟩
      | exact ⟨RfGainCtrlMode.RF_GAIN_SLOWATTACK_AGC, by decide, by rfl⟩
      | exact ⟨RfGainCtrlMode.RF_GAIN_HYBRID_AGC, by decide, by rfl⟩

/-- Witness for claim C5: TX rejection at a concrete parameter block. -/
theorem claim_C5_gain_mode_witness :
    bladerf2_set_gain_mode
      ⟨RfGainCtrlMode.RF_GAIN_SLOWATTACK_AGC, RfGainCtrlMode.RF_GAIN_SLOWATTACK_AGC⟩
      Channel.tx0 BrfGainMode.mgc = .error .unsupported :=
  (claim_C5_gain_mode
    ⟨RfGainCtrlMode.RF_GAIN_SLOWATTACK_AGC, RfGainCtrlMode.RF_GAIN_SLOWATTACK_AGC⟩
    Channel.tx0 BrfGainMode.mgc).1 (by decide)

/-- Counterexample for claim C5 as frozen: for BLADERF_GAIN_DEFAULT on
RX sub-channel 0 the code still issues a front-end command (the
resolved default mode is sent with ad9361_set_rx_gain_control_mode),
so the trace is nonempty, contradicting that no command is issued. -/
theorem claim_C5_gain_mode_counterexample :
    bladerf2_set_gain_mode
      ⟨RfGainCtrlMode.RF_GAIN_SLOWATTACK_AGC, RfGainCtrlMode.RF_GAIN_FASTATTACK_AGC⟩
      Channel.rx0 BrfGainMode.default =
      .ok [FeCall.setRxGainControlMode 0 RfGainCtrlMode.RF_GAIN_SLOWATTACK_AGC] ∧
    [FeCall.setRxGainControlMode 0 RfGainCtrlMode.RF_GAIN_SLOWATTACK_AGC] ≠ ([] : List FeCall) := by
  constructor
  · simp [bladerf2_set_gain_mode, Channel.isTx, Channel.sub]
  · decide

/-! ## Board state gate (_CHECK_BOARD_STATE) and the low-level accessor -/

/-- Result of the locked accessor bladerf_ad9361_read: the returned
status, the (unchanged) board state, whether the device lock is still
held on return, and the list of backend SPI accesses performed. -/
structure Ad9361ReadResult where
  result : Except Err Nat
  finalState : BoardState
  lockHeld : Bool
  accesses : List Nat
deriving Repr

/-- Models _CHECK_BOARD_STATE for a valid device handle: when the
current state is below the required state the macro unlocks the device
lock (in the locked variant) and returns BLADERF_ERR_NOT_INIT; the
pair is (error produced, lock still held). -/
def check_board_state (current required : BoardState) (locked : Bool) : Option Err × Bool :=
  if current.rank < required.rank then (some .notInit, false) else (none, locked)

/-- Models bladerf_ad9361_read for a valid handle bound to this board:
MUTEX_LOCK, then CHECK_BOARD_STATE_LOCKED(STATE_FPGA_LOADED), then the
backend SPI read of address = AD_READ or AD_CNT(1) or address (the
encoding constants live in the third-party ADI header and the claim
does not depend on them, so the access is recorded with the caller
address), then *val = (data shifted right by 56) and 0xff, and
MUTEX_UNLOCK on every exit path after the lock was taken. -/
def bladerf_ad9361_read (st : BoardState) (spi : Nat → Nat) (address : Nat) :
    Ad9361ReadResult :=
  match check_board_state st .fpgaLoaded true with
  | (some e, lk) => ⟨.error e, st, lk, []⟩
  | (none, _) =>
    let data := spi address
    ⟨.ok (data / 2 ^ 56 % 256), st, false, [address]⟩

/-- Claim C6: whenever the current board state is strictly below an
operation required state, the guard produces the not-initialized error
and releases the lock in the locked variant; the lock-taking accessor
bladerf_ad9361_read then returns BLADERF_ERR_NOT_INIT with no backend
access, no state change and the lock released. -/
theorem claim_C6_board_state_guard (cur req : BoardState) (locked : Bool)
    (st : BoardState) (spi : Nat → Nat) (address : Nat) :
    (cur.rank < req.rank → check_board_state cur req locked = (some .notInit, false)) ∧
    (st.rank < BoardState.rank .fpgaLoaded →
      bladerf_ad9361_read st spi address =
        ⟨.error .notInit, st, false, []⟩) := by
  constructor
  · intro h
    simp [check_board_state, h]
  · intro h
    simp [bladerf_ad9361_read, check_board_state, h]

/-- Witness for claim C6 with firmware loaded but no FPGA. -/
theorem claim_C6_board_state_guard_witness :
    bladerf_ad9361_read BoardState.firmwareLoaded (fun _ => 0) 5 =
      ⟨.error .notInit, BoardState.firmwareLoaded, false, []⟩ :=
  (claim_C6_board_state_guard BoardState.uninitialized BoardState.initialized true
    BoardState.firmwareLoaded (fun _ => 0) 5).2 (by decide)

/-! ## Module enable/disable orchestrator (bladerf2_enable_module) -/

/-- The two stream directions (bladerf_direction): BLADERF_RX = 0,
BLADERF_TX = 1. -/
inductive Direction
  | rx
  | tx
deriving DecidableEq, Repr

/-- Models tx = (BLADERF_TX == dir). -/
def Direction.isTx : Direction → Bool
  | .rx => false
  | .tx => true

/-- The RFFE control bit set or cleared for the direction:
RFFE_CONTROL_TXNRX for TX, RFFE_CONTROL_ENABLE for RX. -/
def Direction.enableBit : Direction → Nat
  | .rx => RFFE_CONTROL_ENABLE
  | .tx => RFFE_CONTROL_TXNRX

/-- The direction value 0 or 1 is also the bladerf_channel code passed
to the channel-level helpers: BLADERF_RX = RX channel 0 code,
BLADERF_TX = TX channel 0 code. -/
def Direction.toChannel : Direction → Channel
  | .rx => .rx0
  | .tx => .tx0

/-- Models reg &= ~(1 << b): keep the bits below b and above b. -/
def clearBitN (reg b : Nat) : Nat :=
  reg % 2 ^ b + reg / 2 ^ (b + 1) * 2 ^ (b + 1)

/-- Models reg |= (1 << b). -/
def setBitN (reg b : Nat) : Nat :=
  if reg / 2 ^ b % 2 = 1 then reg else reg + 2 ^ b

/-- Models the pair of statements
reg &= ~(RFFE_CONTROL_SPDT_MASK << shift); reg |= spdt << shift
with the 4-bit wide mask 0xF. -/
def setSpdtField (reg sh spdt : Nat) : Nat :=
  reg % 2 ^ sh + reg / 2 ^ (sh + 4) * 2 ^ (sh + 4) + spdt % 16 * 2 ^ sh

/-- Models _set_spdt_bits: look up the band/port entry (none models the
RETURN_INVAL path when the entry is missing) and rewrite the SPDT
field of the register at the direction shift. -/
def set_spdt_bits (ch : Channel) (enabled : Bool) (frequency : Nat) (reg : Nat) :
    Option Nat :=
  match get_band_port_map ch enabled frequency with
  | none => none
  | some pm =>
    let sh := if ch.isTx then RFFE_CONTROL_TX_SW_SHIFT else RFFE_CONTROL_RX_SW_SHIFT
    some (setSpdtField reg sh pm.spdt)

/-- Collaborator calls made by bladerf2_enable_module, in order. -/
inductive BCall
  | syncDeinit (dir : Direction)                 -- sync_deinit(&board_data->sync[dir])
  | getFrequency (dir : Direction)               -- bladerf2_get_frequency
  | setAd9361Port (dir : Direction) (port : Nat) -- _set_ad9361_port
  | rffeRead                                     -- backend->rffe_control_read
  | rffeWrite (v : Nat)                          -- backend->rffe_control_write
  | backendEnableModule (dir : Direction) (en : Bool)  -- backend->enable_module
deriving DecidableEq, Repr

/-- Models bladerf2_enable_module after the board-state gate, over the
current RFFE register value reg0 and the current front-end frequency.
On enable: query the frequency, set the AD9361 port, read the
register, set the direction enable bit, rewrite the SPDT bits for the
enabled band, write the register, enable the module in the backend.
On disable: tear down the synchronous interface first, read the
register, clear the direction enable bit, rewrite the SPDT bits with
enabled = false and the local freq still 0 (always the Shutdown
entry), write the register, disable the module in the backend.  The
result is the ordered collaborator trace and the written register
value; none models the error path of a missing port-map entry. -/
def bladerf2_enable_module (dir : Direction) (enable : Bool) (curFreq : Nat) (reg0 : Nat) :
    Option (List BCall × Nat) :=
  if enable then
    match get_band_port_map dir.toChannel true curFreq with
    | none => none
    | some pm =>
      let reg1 := setBitN reg0 dir.enableBit
      match set_spdt_bits dir.toChannel true curFreq reg1 with
      | none => none
      | some reg2 =>
        some ([.getFrequency dir, .setAd9361Port dir pm.ad9361_port, .rffeRead,
               .rffeWrite reg2, .backendEnableModule dir true], reg2)
  else
    let reg1 := clearBitN reg0 dir.enableBit
    match set_spdt_bits dir.toChannel false 0 reg1 with
    | none => none
    | some reg2 =>
      some ([.syncDeinit dir, .rffeRead, .rffeWrite reg2, .backendEnableModule dir false], reg2)

/-- Claim C7: disabling a direction always produces the trace whose
first call tears down the synchronous stream handle, strictly before
the RFFE control write (third call) and the backend disable (fourth),
and the written register value has the direction enable bit cleared. -/
theorem claim_C7_disable_order (dir : Direction) (curFreq : Nat) (reg0 : Nat) :
    ∃ v, bladerf2_enable_module dir false curFreq reg0 =
        some ([.syncDeinit dir, .rffeRead, .rffeWrite v, .backendEnableModule dir false], v) ∧
      v / 2 ^ dir.enableBit % 2 = 0 := by
  cases dir
  · refine ⟨setSpdtField (clearBitN reg0 RFFE_CONTROL_ENABLE) RFFE_CONTROL_RX_SW_SHIFT
      RFFE_CONTROL_SPDT_SHUTDOWN, ?_, ?_⟩
    · simp [bladerf2_enable_module, Direction.isTx, Direction.toChannel, Direction.enableBit,
        set_spdt_bits, get_band_port_map, Channel.isTx, bladerf2_rx_band_port_map,
        List.find?]
    · simp only [Direction.enableBit, setSpdtField, clearBitN, RFFE_CONTROL_ENABLE,
        RFFE_CONTROL_RX_SW_SHIFT, RFFE_CONTROL_SPDT_SHUTDOWN]
      omega
  · refine ⟨setSpdtField (clearBitN reg0 RFFE_CONTROL_TXNRX) RFFE_CONTROL_TX_SW_SHIFT
      RFFE_CONTROL_SPDT_SHUTDOWN, ?_, ?_⟩
    · simp [bladerf2_enable_module, Direction.isTx, Direction.toChannel, Direction.enableBit,
        set_spdt_bits, get_band_port_map, Channel.isTx, bladerf2_tx_band_port_map,
        List.find?]
    · simp only [Direction.enableBit, setSpdtField, clearBitN, RFFE_CONTROL_TXNRX,
        RFFE_CONTROL_TX_SW_SHIFT, RFFE_CONTROL_SPDT_SHUTDOWN]
      omega

/-! ## FPGA size validation and load (is_valid_fpga_size, bladerf2_load_fpga) -/

/-- The board FPGA sizes reaching is_valid_fpga_size: BLADERF_FPGA_A4
and any other value, which takes the relaxed default branch. -/
inductive FpgaSize
  | a4         -- BLADERF_FPGA_A4
  | otherSize  -- any other bladerf_fpga_size value
deriving DecidableEq, Repr

/-- FPGA_SIZE_XA4, the exact uncompressed A4 bitstream byte count. -/
def FPGA_SIZE_XA4 : Nat := 2632660

/-- Models is_valid_fpga_size: A4 requires the exact byte count; the
default branch accepts lengths from 1 MiB up to the flash FPGA region
length (a constant of the flash layout header, passed in here); the
BLADERF_SKIP_FPGA_SIZE_CHECK environment override forces acceptance. -/
def is_valid_fpga_size (flashLenFpga : Nat) (fpga : FpgaSize) (len : Nat)
    (override : Bool) : Bool :=
  let valid :=
    match fpga with
    | .a4 => len == FPGA_SIZE_XA4
    | .otherSize =>
      if len < 1 * 1024 * 1024 then false
      else if len > flashLenFpga then false
      else true
  if override then true else valid

/-- Models bladerf2_load_fpga: board state gate at
STATE_FIRMWARE_LOADED, then the size validation (BLADERF_ERR_INVAL on
rejection); the backend load, the state update and the board
initialization that follow on success are collaborator work outside
this claim and are summarized as ok. -/
def bladerf2_load_fpga (flashLenFpga : Nat) (st : BoardState) (fpga : FpgaSize)
    (override : Bool) (len : Nat) : Except Err Unit :=
  if st.rank < BoardState.rank .firmwareLoaded then .error .notInit
  else if ¬ (is_valid_fpga_size flashLenFpga fpga len override = true) then .error .inval
  else .ok ()

/-- Claim C9: for the A4 FPGA size, validation accepts exactly
2632660 bytes, rejects 2000000 bytes without the override, accepts any
length with the override set, and load_fpga fails with the
invalid-argument error when validation rejects the length. -/
theorem claim_C9_fpga_size (flashLenFpga : Nat) (st : BoardState) (len : Nat)
    (override : Bool) :
    (is_valid_fpga_size flashLenFpga .a4 2632660 override = true) ∧
    (is_valid_fpga_size flashLenFpga .a4 2000000 false = false) ∧
    (is_valid_fpga_size flashLenFpga .a4 len true = true) ∧
    (BoardState.rank .firmwareLoaded ≤ st.rank →
      is_valid_fpga_size flashLenFpga .a4 len override = false →
      bladerf2_load_fpga flashLenFpga st .a4 override len = .error .inval) := by
  refine ⟨?_, ?_, ?_, fun hst hv => ?_⟩
  · cases override <;> simp [is_valid_fpga_size, FPGA_SIZE_XA4]
  · simp [is_valid_fpga_size, FPGA_SIZE_XA4]
  · simp [is_valid_fpga_size]
  · have h1 : ¬ st.rank < BoardState.rank .firmwareLoaded := by omega
    simp [bladerf2_load_fpga, hv, h1]

/-- Witness for claim C9: the exact A4 length passes and a 2 MB image
fails the load with the invalid-argument error. -/
theorem claim_C9_fpga_size_witness :
    is_valid_fpga_size 4194304 .a4 2632660 false = true ∧
    bladerf2_load_fpga 4194304 .firmwareLoaded .a4 false 2000000 = .error .inval :=
  ⟨(claim_C9_fpga_size 4194304 .firmwareLoaded 2000000 false).1,
   (claim_C9_fpga_size 4194304 .firmwareLoaded 2000000 false).2.2.2
     (by decide) (by decide)⟩

/-! ## Port and gain-stage list reporting (bladerf2_get_rf_ports,
bladerf2_get_gain_stages) -/

/-- Models bladerf2_get_rf_ports with a non-null ports array of
capacity count: count = (port_map_len < count) ? port_map_len : count,
then names 0 .. count-1 are written; the return value is the full
table length.  The result pair is (returned length, written names). -/
def bladerf2_get_rf_ports (ch : Channel) (count : Nat) : Nat × List String :=
  let port_map := if ch.isTx then bladerf2_tx_port_map else bladerf2_rx_port_map
  let c := if port_map.length < count then port_map.length else count
  (port_map.length, (port_map.take c).map Prod.fst)

/-- Models bladerf2_get_gain_stages with a non-null stages array of
capacity count, analogously. -/
def bladerf2_get_gain_stages (ch : Channel) (count : Nat) : Nat × List String :=
  let stage_infos := if ch.isTx then bladerf2_tx_gain_stages else bladerf2_rx_gain_stages
  let c := if stage_infos.length < count then stage_infos.length else count
  (stage_infos.length, (stage_infos.take c).map Prod.fst)

/-- Claim C10: for every channel and capacity, the port-list and
gain-stage-list operations return the full table length (12 RX / 2 TX
ports; 2 RX / 1 TX gain stages) even when the capacity is smaller, and
write exactly min(count, table length) names, never more. -/
theorem claim_C10_list_reporting (ch : Channel) (count : Nat) :
    ((bladerf2_get_rf_ports ch count).1 = if ch.isTx then 2 else 12) ∧
    ((bladerf2_get_rf_ports ch count).2.length =
      min count (if ch.isTx then 2 else 12)) ∧
    ((bladerf2_get_gain_stages ch count).1 = if ch.isTx then 1 else 2) ∧
    ((bladerf2_get_gain_stages ch count).2.length =
      min count (if ch.isTx then 1 else 2)) := by
  cases ch <;>
    refine ⟨by rfl, ?_, by rfl, ?_⟩ <;>
    · simp [bladerf2_get_rf_ports, bladerf2_get_gain_stages, Channel.isTx,
        bladerf2_rx_port_map, bladerf2_tx_port_map,
        bladerf2_rx_gain_stages, bladerf2_tx_gain_stages]
      split_ifs <;> omega

/-! ## Calibration codec (DC/Phase/Gain correction)

The AD9361 register names below come from the correction tables of
bladerf2.c; the numeric addresses live in the third-party ADI register
map header, and distinct macro names denote distinct 8-bit registers.
REG_ZERO stands for the literal 0 placeholder entries of the RX
DC-offset rows of the main table, which the code never dereferences
(the RX DC path uses its own two-register table). -/

inductive Reg
  | REG_RX1_INPUT_A_PHASE_CORR
  | REG_RX1_INPUT_BC_PHASE_CORR
  | REG_RX1_INPUT_A_GAIN_CORR
  | REG_RX2_INPUT_A_PHASE_CORR
  | REG_RX2_INPUT_BC_PHASE_CORR
  | REG_RX2_INPUT_A_GAIN_CORR
  | REG_TX1_OUT_1_OFFSET_I
  | REG_TX1_OUT_2_OFFSET_I
  | REG_TX1_OUT_1_OFFSET_Q
  | REG_TX1_OUT_2_OFFSET_Q
  | REG_TX1_OUT_1_PHASE_CORR
  | REG_TX1_OUT_2_PHASE_CORR
  | REG_TX1_OUT_1_GAIN_CORR
  | REG_TX1_OUT_2_GAIN_CORR
  | REG_TX2_OUT_1_OFFSET_I
  | REG_TX2_OUT_2_OFFSET_I
  | REG_TX2_OUT_1_OFFSET_Q
  | REG_TX2_OUT_2_OFFSET_Q
  | REG_TX2_OUT_1_PHASE_CORR
  | REG_TX2_OUT_2_PHASE_CORR
  | REG_TX2_OUT_1_GAIN_CORR
  | REG_TX2_OUT_2_GAIN_CORR
  | REG_INPUT_A_OFFSETS_1
  | REG_RX1_INPUT_A_OFFSETS
  | REG_RX1_INPUT_A_Q_OFFSET
  | REG_INPUT_BC_OFFSETS_1
  | REG_RX1_INPUT_BC_OFFSETS
  | REG_RX1_INPUT_BC_Q_OFFSET
  | REG_RX2_INPUT_A_I_OFFSET
  | REG_RX2_INPUT_A_OFFSETS
  | REG_RX2_INPUT_BC_I_OFFSET
  | REG_RX2_INPUT_BC_OFFSETS
  | REG_FORCE_BITS
  | REG_TX_FORCE_BITS
  | REG_ZERO
deriving DecidableEq, Repr

/-- Correction kinds (bladerf_correction). -/
inductive Correction
  | dcoffI  -- BLADERF_CORR_DCOFF_I
  | dcoffQ  -- BLADERF_CORR_DCOFF_Q
  | phase   -- BLADERF_CORR_PHASE
  | gain    -- BLADERF_CORR_GAIN
deriving DecidableEq, Repr

/-- The AD9361 register file: 8-bit registers named by Reg. -/
def RegFile := Reg → Nat

/-- Models ad9361_spi_read of an 8-bit register. -/
def spiRead (f : RegFile) (r : Reg) : Nat := f r % 256

/-- Models ad9361_spi_write of an 8-bit register. -/
def spiWrite (f : RegFile) (r : Reg) (v : Nat) : RegFile :=
  fun r2 => if r2 = r then v % 256 else f r2

/-- Models ad9361_correction_reg_table[ch].corr[corr].reg[low_band]
(false selects index 0, true index 1, as the C bool-to-int conversion
does).  The sparse RX gain rows reuse the BC phase register for the
high-band gain entry exactly as the source initializers do. -/
def correction_reg (ch : Channel) (corr : Correction) (lowBand : Bool) : Reg :=
  match ch, corr, lowBand with
  | .rx0, .dcoffI, _ | .rx0, .dcoffQ, _ | .rx1, .dcoffI, _ | .rx1, .dcoffQ, _ => .REG_ZERO
  | .rx0, .phase, false => .REG_RX1_INPUT_A_PHASE_CORR
  | .rx0, .phase, true  => .REG_RX1_INPUT_BC_PHASE_CORR
  | .rx0, .gain, false  => .REG_RX1_INPUT_A_GAIN_CORR
  | .rx0, .gain, true   => .REG_RX1_INPUT_BC_PHASE_CORR
  | .rx1, .phase, false => .REG_RX2_INPUT_A_PHASE_CORR
  | .rx1, .phase, true  => .REG_RX2_INPUT_BC_PHASE_CORR
  | .rx1, .gain, false  => .REG_RX2_INPUT_A_GAIN_CORR
  | .rx1, .gain, true   => .REG_RX2_INPUT_BC_PHASE_CORR
  | .tx0, .dcoffI, false => .REG_TX1_OUT_1_OFFSET_I
  | .tx0, .dcoffI, true  => .REG_TX1_OUT_2_OFFSET_I
  | .tx0, .dcoffQ, false => .REG_TX1_OUT_1_OFFSET_Q
  | .tx0, .dcoffQ, true  => .REG_TX1_OUT_2_OFFSET_Q
  | .tx0, .phase, false  => .REG_TX1_OUT_1_PHASE_CORR
  | .tx0, .phase, true   => .REG_TX1_OUT_2_PHASE_CORR
  | .tx0, .gain, false   => .REG_TX1_OUT_1_GAIN_CORR
  | .tx0, .gain, true    => .REG_TX1_OUT_2_GAIN_CORR
  | .tx1, .dcoffI, false => .REG_TX2_OUT_1_OFFSET_I
  | .tx1, .dcoffI, true  => .REG_TX2_OUT_2_OFFSET_I
  | .tx1, .dcoffQ, false => .REG_TX2_OUT_1_OFFSET_Q
  | .tx1, .dcoffQ, true  => .REG_TX2_OUT_2_OFFSET_Q
  | .tx1, .phase, false  => .REG_TX2_OUT_1_PHASE_CORR
  | .tx1, .phase, true   => .REG_TX2_OUT_2_PHASE_CORR
  | .tx1, .gain, false   => .REG_TX2_OUT_1_GAIN_CORR
  | .tx1, .gain, true    => .REG_TX2_OUT_2_GAIN_CORR

/-- Models ad9361_correction_reg_table[ch].corr[corr].shift. -/
def correction_shift (ch : Channel) (corr : Correction) : Nat :=
  match ch, corr with
  | .rx0, .dcoffI | .rx0, .dcoffQ | .rx1, .dcoffI | .rx1, .dcoffQ => 0
  | .tx0, .dcoffI | .tx0, .dcoffQ | .tx1, .dcoffI | .tx1, .dcoffQ => 5
  | _, _ => 6

/-- Models ad9361_correction_rx_dcoff_reg_table[ch][low_band][is_q].reg_top
(TX channels never reach this table). -/
def rx_dcoff_reg_top (ch : Channel) (lowBand : Bool) (isQ : Bool) : Reg :=
  match ch, lowBand, isQ with
  | .rx0, false, false => .REG_INPUT_A_OFFSETS_1
  | .rx0, false, true  => .REG_RX1_INPUT_A_OFFSETS
  | .rx0, true,  false => .REG_INPUT_BC_OFFSETS_1
  | .rx0, true,  true  => .REG_RX1_INPUT_BC_OFFSETS
  | .rx1, false, false => .REG_RX2_INPUT_A_I_OFFSET
  | .rx1, false, true  => .REG_RX2_INPUT_A_OFFSETS
  | .rx1, true,  false => .REG_RX2_INPUT_BC_I_OFFSET
  | .rx1, true,  true  => .REG_RX2_INPUT_BC_OFFSETS
  | _, _, _ => .REG_ZERO

/-- Models ad9361_correction_rx_dcoff_reg_table[ch][low_band][is_q].reg_bot. -/
def rx_dcoff_reg_bot (ch : Channel) (lowBand : Bool) (isQ : Bool) : Reg :=
  match ch, lowBand, isQ with
  | .rx0, false, false => .REG_RX1_INPUT_A_OFFSETS
  | .rx0, false, true  => .REG_RX1_INPUT_A_Q_OFFSET
  | .rx0, true,  false => .REG_RX1_INPUT_BC_OFFSETS
  | .rx0, true,  true  => .REG_RX1_INPUT_BC_Q_OFFSET
  | .rx1, false, false => .REG_RX2_INPUT_A_OFFSETS
  | .rx1, false, true  => .REG_INPUT_A_OFFSETS_1
  | .rx1, true,  false => .REG_RX2_INPUT_BC_OFFSETS
  | .rx1, true,  true  => .REG_INPUT_BC_OFFSETS_1
  | _, _, _ => .REG_ZERO

/-- Models ad9361_correction_force_bit[ch >> 1][corr][low_band]. -/
def correction_force_bit (ch : Channel) (corr : Correction) (lowBand : Bool) : Nat :=
  match ch, corr, lowBand with
  | .rx0, .dcoffI, false | .rx0, .dcoffQ, false
  | .tx0, .dcoffI, false | .tx0, .dcoffQ, false => 2
  | .rx0, .dcoffI, true  | .rx0, .dcoffQ, true
  | .tx0, .dcoffI, true  | .tx0, .dcoffQ, true  => 6
  | .rx0, .phase, false  | .rx0, .gain, false
  | .tx0, .phase, false  | .tx0, .gain, false   => 0
  | .rx0, .phase, true   | .rx0, .gain, true
  | .tx0, .phase, true   | .tx0, .gain, true    => 4
  | .rx1, .dcoffI, false | .rx1, .dcoffQ, false
  | .tx1, .dcoffI, false | .tx1, .dcoffQ, false => 3
  | .rx1, .dcoffI, true  | .rx1, .dcoffQ, true
  | .tx1, .dcoffI, true  | .tx1, .dcoffQ, true  => 7
  | .rx1, .phase, false  | .rx1, .gain, false
  | .tx1, .phase, false  | .tx1, .gain, false   => 1
  | .rx1, .phase, true   | .rx1, .gain, true
  | .tx1, .phase, true   | .tx1, .gain, true    => 5

/-- Models reg = _is_tx(ch) ? REG_TX_FORCE_BITS : REG_FORCE_BITS. -/
def force_reg (ch : Channel) : Reg :=
  if ch.isTx then .REG_TX_FORCE_BITS else .REG_FORCE_BITS

/-- Models the sign extension of the 8-to-13-bit paths:
*value = data | ((data & (1 << 12)) ? 0xf000 : 0x0000) read back as an
int16_t; for data below 2^15 (every caller stays below 0x8000) this is
data % 2^12 - 2^12 when bit 12 is set and data itself otherwise. -/
def signExtend12 (data : Nat) : Int :=
  if data / 2 ^ 12 % 2 = 1 then (data % 2 ^ 12 : Int) - 2 ^ 12 else (data : Int)

/-- Models the sign extension of the 8-to-14-bit paths:
*value = data | ((data & (1 << 13)) ? 0xc000 : 0x0000) read back as an
int16_t; for data below 2^14 this is data % 2^13 - 2^13 when bit 13 is
set and data itself otherwise. -/
def signExtend13 (data : Nat) : Int :=
  if data / 2 ^ 13 % 2 = 1 then (data % 2 ^ 13 : Int) - 2 ^ 13 else (data : Int)

/-- Models bladerf2_get_correction after the board-state gate, channel
and correction validation (guaranteed by the inductive argument
types), and the band lookup (lowBand is the low_band flag the code
derives from the active port: mode == TXA for TX, mode == A_BALANCED
for RX after the balanced-port check; both get and set derive it the
same way, so the flag is a parameter here).  The RX DC-offset path
reads the top and bottom registers and assembles the 10-bit physical
value with the channel-dependent packing, scales it to 13 bits and
sign extends; every other path reads the single table register, scales
by the table shift and sign extends from bit 12 (shift 5) or 13
(shift 6).  Bit expressions are written in div/mod arithmetic; the
original C expression is quoted at each line. -/
def bladerf2_get_correction (ch : Channel) (corr : Correction) (lowBand : Bool)
    (f : RegFile) : Int :=
  if (corr = .dcoffI ∨ corr = .dcoffQ) ∧ ch.isTx = false then
    let isQ := corr = .dcoffQ
    let data_top := spiRead f (rx_dcoff_reg_top ch lowBand isQ)
    let data_bot := spiRead f (rx_dcoff_reg_bot ch lowBand isQ)
    let data10 :=
      if ch = .rx0 then
        if isQ = false then
          data_top % 16 * 64 + data_bot / 4   -- ((data_top & 0xf) << 6) | (data_bot >> 2)
        else
          data_top % 4 * 256 + data_bot       -- ((data_top & 0x3) << 8) | data_bot
      else
        if isQ = false then
          data_top * 4 + data_bot % 4         -- (data_top << 2) | (data_bot & 0x3)
        else
          data_top * 16 + data_bot / 16       -- (data_top << 4) | (data_bot >> 4)
    let data := data10 * 8 % 65536            -- data = data << 3 (uint16)
    signExtend12 data
  else
    let reg := correction_reg ch corr lowBand
    let shift := correction_shift ch corr
    let status := spiRead f reg
    let data := status * 2 ^ shift % 65536    -- data = status << shift (uint16)
    if shift = 5 then signExtend12 data else signExtend13 data

/-- Models bladerf2_set_correction under the same conventions as
bladerf2_get_correction.  The RX DC-offset path scales the 13-bit
value down to the 10-bit physical value (arithmetic shift right by 3
into a uint16), read-modify-writes the top and bottom registers with
the channel-dependent packing; every other path writes
(value >> shift) & 0xff to the single table register.  Afterwards the
channel force-bits register is read, the kind/band force bit is set
(status | (1 << bit)) and the register written back. -/
def bladerf2_set_correction (ch : Channel) (corr : Correction) (lowBand : Bool)
    (f : RegFile) (value : Int) : RegFile :=
  let f2 :=
    if (corr = .dcoffI ∨ corr = .dcoffQ) ∧ ch.isTx = false then
      let isQ := corr = .dcoffQ
      let data : Nat := ((value / 8) % 65536).toNat   -- data = value >> 3 (int16 to uint16)
      let top := rx_dcoff_reg_top ch lowBand isQ
      let bot := rx_dcoff_reg_bot ch lowBand isQ
      let data_top := spiRead f top
      let data_bot := spiRead f bot
      let t1 :=
        if ch = .rx0 then
          if isQ = false then
            data_top / 16 * 16 + data / 64 % 16   -- (data_top & 0xf0) | ((data >> 6) & 0x0f)
          else
            data_top / 4 * 4 + data / 256 % 4     -- (data_top & 0xfc) | ((data >> 8) & 0x03)
        else
          if isQ = false then
            data / 4 % 256                        -- (data >> 2) & 0xff
          else
            data % 256 / 64 * 64 + data / 16 % 64 -- (data & 0xc0) | ((data >> 4) & 0x3f)
      let b1 :=
        if ch = .rx0 then
          if isQ = false then
            data_bot % 4 + data % 64 * 4          -- (data_bot & 0x03) | ((data & 0x3f) << 2)
          else
            data % 256                            -- data & 0xff
        else
          if isQ = false then
            data_bot / 4 * 4 + data % 4           -- (data_bot & 0xfc) | (data & 0x03)
          else
            data % 16 + data % 16 * 16            -- (data & 0x0f) | ((data & 0x0f) << 4)
      spiWrite (spiWrite f top t1) bot b1
    else
      let reg := correction_reg ch corr lowBand
      let shift := correction_shift ch corr
      let data : Nat := ((value / 2 ^ shift) % 256).toNat  -- (value >> shift) & 0xff
      spiWrite f reg data                                  -- write data & 0xff
  let freg := force_reg ch
  let status := spiRead f2 freg
  let b := correction_force_bit ch corr lowBand
  let data2 := if status / 2 ^ b % 2 = 1 then status else status + 2 ^ b  -- status | (1 << b)
  spiWrite f2 freg data2

/-- The set of logical correction values representable at the register
granularity of the given channel and kind: multiples of 2^3 in the
signed 13-bit 10-bit-backed range for RX DC offsets, multiples of 2^5
in the signed 13-bit range for TX DC offsets, and multiples of 2^6 in
the signed 14-bit range for phase and gain. -/
def CorrectionRepresentable (ch : Channel) (corr : Correction) (v : Int) : Prop :=
  match ch, corr with
  | .rx0, .dcoffI | .rx0, .dcoffQ | .rx1, .dcoffI | .rx1, .dcoffQ =>
      v % 8 = 0 ∧ -4096 ≤ v ∧ v ≤ 4088
  | .tx0, .dcoffI | .tx0, .dcoffQ | .tx1, .dcoffI | .tx1, .dcoffQ =>
      v % 32 = 0 ∧ -4096 ≤ v ∧ v ≤ 4064
  | _, _ =>
      v % 64 = 0 ∧ -8192 ≤ v ∧ v ≤ 8128

set_option maxHeartbeats 4000000 in
set_option maxRecDepth 100000 in
/-- For the RX2 Q-offset path the set/get composition ignores the prior
register file contents (both registers are written in full), so it is a
function of the value alone; the value is determined by its index among
the 1024 representable multiples of 8, and every index whose value is
negative or whose bits 6..7 (of the 10-bit physical value) are clear
round-trips exactly.  Settled by exhaustive evaluation of the embedded
code on all 1024 cases. -/
theorem rx2_q_cases : ∀ k : Nat, k < 1024 →
    ((8 * (k:Int) - 4096 < 0 ∨ (8 * (k:Int) - 4096) / 8 % 256 < 64) →
      bladerf2_get_correction .rx1 .dcoffQ true
        (bladerf2_set_correction .rx1 .dcoffQ true (fun _ => 0) (8 * (k:Int) - 4096))
        = 8 * (k:Int) - 4096) := by decide

set_option maxHeartbeats 1000000 in
/-- Transport of rx2_q_cases to an arbitrary register file, band flag and
representable value: the composition is independent of both (full-byte
writes, band-independent RX DC registers), and every representable value
is 8 * k - 4096 for exactly one k < 1024. -/
theorem rx2_q_roundtrip (lowBand : Bool) (f : RegFile) (v : Int)
    (h1 : v % 8 = 0) (h2 : -4096 ≤ v) (h3 : v ≤ 4088)
    (hx : v < 0 ∨ v / 8 % 256 < 64) :
    bladerf2_get_correction .rx1 .dcoffQ lowBand
      (bladerf2_set_correction .rx1 .dcoffQ lowBand f v) = v := by
  have hindep : bladerf2_get_correction .rx1 .dcoffQ lowBand
      (bladerf2_set_correction .rx1 .dcoffQ lowBand f v)
      = bladerf2_get_correction .rx1 .dcoffQ true
        (bladerf2_set_correction .rx1 .dcoffQ true (fun _ => 0) v) := by
    cases lowBand <;>
      simp [bladerf2_get_correction, bladerf2_set_correction, rx_dcoff_reg_top,
        rx_dcoff_reg_bot, correction_reg, correction_shift, correction_force_bit,
        force_reg, spiRead, spiWrite, signExtend12, signExtend13, Channel.isTx]
  rw [hindep]
  have hk : (v / 8 + 512).toNat < 1024 := by omega
  have h := rx2_q_cases ((v / 8 + 512).toNat) hk
  have hv : 8 * (((v / 8 + 512).toNat : Nat) : Int) - 4096 = v := by omega
  rw [hv] at h
  exact h hx

set_option maxHeartbeats 4000000 in
/-- C1: for every channel, correction kind, band and register-granularity
representable value, set_correction followed by get_correction returns the
value exactly — except on the RX2 Q-offset path, where the top-register
packing duplicates bits 6..7 of the physical value into bits 10..11 read
back by get, so the round trip additionally requires the value to be
negative or to have those bits clear (hypothesis hexc; the frozen claim
omits this exception and is refuted by value 512, see the counterexample).
The scenario conjuncts: setting TX1 DC-I to +100 reads back +96 (nearest
multiple of 2^5 toward zero), and the corresponding force bit of the TX
force-bits register is set afterwards. -/
theorem claim_C1_correction_roundtrip (ch : Channel) (corr : Correction) (lowBand : Bool)
    (f : RegFile) (v : Int)
    (hrep : CorrectionRepresentable ch corr v)
    (hexc : ch = .rx1 → corr = .dcoffQ → (v < 0 ∨ v / 8 % 256 < 64)) :
    bladerf2_get_correction ch corr lowBand
      (bladerf2_set_correction ch corr lowBand f v) = v ∧
    bladerf2_get_correction .tx0 .dcoffI lowBand
      (bladerf2_set_correction .tx0 .dcoffI lowBand f 100) = 96 ∧
    spiRead (bladerf2_set_correction .tx0 .dcoffI lowBand f 100) (force_reg .tx0)
      / 2 ^ correction_force_bit .tx0 .dcoffI lowBand % 2 = 1 := by
  refine ⟨?_, ?_, ?_⟩
  · cases ch <;> cases corr <;> cases lowBand <;>
    · simp only [CorrectionRepresentable] at hrep
      obtain ⟨hr1, hr2, hr3⟩ := hrep
      first
        | (have hx : v < 0 ∨ v / 8 % 256 < 64 := hexc rfl rfl
           exact rx2_q_roundtrip _ f v hr1 hr2 hr3 hx)
        | (simp [bladerf2_get_correction, bladerf2_set_correction, rx_dcoff_reg_top,
             rx_dcoff_reg_bot, correction_reg, correction_shift, correction_force_bit,
             force_reg, spiRead, spiWrite, signExtend12, signExtend13, Channel.isTx]
           split_ifs <;> omega)
  · cases lowBand <;>
      simp [bladerf2_get_correction, bladerf2_set_correction, correction_reg,
        correction_shift, correction_force_bit, force_reg, spiRead, spiWrite,
        signExtend12, signExtend13, Channel.isTx]
  · cases lowBand <;>
    · simp [bladerf2_set_correction, correction_reg, correction_shift,
        correction_force_bit, force_reg, spiRead, spiWrite, Channel.isTx]
      split_ifs <;> omega

/-- Witness for claim_C1_correction_roundtrip: RX1 DC-I at the lowest
representable value -4096 over the all-zero register file round-trips. -/
theorem claim_C1_correction_roundtrip_witness :
    CorrectionRepresentable Channel.rx0 Correction.dcoffI (-4096) ∧
    bladerf2_get_correction .rx0 .dcoffI true
      (bladerf2_set_correction .rx0 .dcoffI true (fun _ => 0) (-4096)) = -4096 :=
  ⟨⟨by decide, by decide, by decide⟩,
   (claim_C1_correction_roundtrip .rx0 .dcoffI true (fun _ => 0) (-4096)
      ⟨by decide, by decide, by decide⟩ (fun h => Channel.noConfusion h)).1⟩

/-- Counterexample to the frozen C1 claim: value 512 is representable for
the RX2 Q offset (a multiple of 8 in range), yet setting it and reading
it back yields 8704, because set packs bits 6..7 of the 10-bit physical
value 64 into the top register twice (0xc0 field and the low 0x3f field)
and get reassembles them into bits 10..11. -/
theorem claim_C1_correction_roundtrip_counterexample :
    CorrectionRepresentable Channel.rx1 Correction.dcoffQ 512 ∧
    bladerf2_get_correction .rx1 .dcoffQ true
      (bladerf2_set_correction .rx1 .dcoffQ true (fun _ => 0) 512) = 8704 ∧
    (8704 : Int) ≠ 512 :=
  ⟨⟨by decide, by decide, by decide⟩, by decide, by decide⟩
